import Mathlib

/-!
Verification of the core simulation of the space-shooter repository
(src/main.rs) against its natural-language specification.

The Rust source is shallowly embedded below: f32 values are modelled as
rationals (ℚ), u32 counters as Nat with an explicit wrap modulo 2^32 where
the source performs arithmetic that can underflow, Vec<GameObject> as
List GameObject, and the per-frame `update` / key-event handlers as pure
state-transition functions.  Randomness (the horizontal spawn position from
rand::thread_rng) and the restart key edge (ctx.keyboard.is_key_just_pressed)
are passed in as explicit parameters.
-/

namespace SpaceShooter

/-- Wrapping u32 decrement, the semantics of `self.lives -= 1` on a u32
(release-mode two's-complement wraparound; a debug build would abort at 0).
Stated in branch form so that it reduces without expanding the 2^32 literal;
u32dec_eq_mod below proves it equal to the usual modular form. -/
def u32dec (n : Nat) : Nat := if n = 0 then 4294967295 else n - 1

/-- On u32-range inputs, u32dec is subtraction of 1 modulo 2^32. -/
lemma u32dec_eq_mod (n : Nat) (h : n < 4294967296) :
    u32dec n = (n + 4294967295) % 4294967296 := by
  unfold u32dec
  split <;> omega

/-- ggez::glam::Vec2, with f32 components modelled as rationals. -/
structure Vec2 where
  x : ℚ
  y : ℚ
deriving DecidableEq

/-- ggez::graphics::Rect. -/
structure Rect where
  x : ℚ
  y : ℚ
  w : ℚ
  h : ℚ
deriving DecidableEq

def Rect.left (r : Rect) : ℚ := r.x

def Rect.right (r : Rect) : ℚ := r.x + r.w

def Rect.top (r : Rect) : ℚ := r.y

def Rect.bottom (r : Rect) : ℚ := r.y + r.h

/-- ggez Rect::overlaps: inclusive AABB intersection test. -/
def Rect.overlaps (a b : Rect) : Bool :=
  decide (a.left ≤ b.right) && decide (a.right ≥ b.left) &&
  decide (a.top ≤ b.bottom) && decide (a.bottom ≥ b.top)

/-- struct GameObject of src/main.rs. -/
structure GameObject where
  position : Vec2
  velocity : Vec2
  size : Vec2
  alive : Bool
deriving DecidableEq

/-- GameObject::new: position (x,y), velocity Vec2::ZERO, given size, alive. -/
def GameObject.new (x y width height : ℚ) : GameObject :=
  ⟨⟨x, y⟩, ⟨0, 0⟩, ⟨width, height⟩, true⟩

/-- GameObject::bounds. -/
def GameObject.bounds (g : GameObject) : Rect :=
  ⟨g.position.x - g.size.x / 2, g.position.y - g.size.y / 2, g.size.x, g.size.y⟩

/-- GameObject::collides_with. -/
def GameObject.collides_with (a b : GameObject) : Bool :=
  a.bounds.overlaps b.bounds

/-- struct Player of src/main.rs; lives is a u32 modelled as Nat. -/
structure Player where
  game_object : GameObject
  lives : Nat
  invincible_timer : ℚ
deriving DecidableEq

/-- Player::new. -/
def Player.new (x y : ℚ) : Player :=
  ⟨GameObject.new x y 30 30, 3, 0⟩

/-- Player::take_damage, returning the updated player and the bool result. -/
def Player.take_damage (p : Player) : Player × Bool :=
  if p.invincible_timer ≤ 0 then
    ({ p with lives := u32dec p.lives, invincible_timer := 2 }, true)
  else (p, false)

/-- Player::update. -/
def Player.update (p : Player) (dt : ℚ) : Player :=
  if p.invincible_timer > 0 then
    { p with invincible_timer := p.invincible_timer - dt }
  else p

/-- Player::is_invincible. -/
def Player.is_invincible (p : Player) : Bool :=
  decide (p.invincible_timer > 0)

/-- Iterated Player::update over a list of frame deltas. -/
def Player.updates (p : Player) (dts : List ℚ) : Player :=
  dts.foldl Player.update p

def WINDOW_WIDTH : ℚ := 800

def WINDOW_HEIGHT : ℚ := 600

def PLAYER_SPEED : ℚ := 300

def BULLET_SPEED : ℚ := 400

def ENEMY_SPEED : ℚ := 100

def ENEMY_SPAWN_INTERVAL : ℚ := 1

/-- struct MainState of src/main.rs. -/
structure MainState where
  player : Player
  bullets : List GameObject
  enemies : List GameObject
  powerups : List GameObject
  score : Nat
  game_over : Bool
  spawn_timer : ℚ
  powerup_timer : ℚ
deriving DecidableEq

/-- MainState::new. -/
def MainState.new : MainState where
  player := Player.new (WINDOW_WIDTH / 2) (WINDOW_HEIGHT - 50)
  bullets := []
  enemies := []
  powerups := []
  score := 0
  game_over := false
  spawn_timer := 0
  powerup_timer := 0

/-- MainState::spawn_enemy; the random x drawn from gen_range(20.0..WINDOW_WIDTH-20.0)
is passed in as rngX. -/
def MainState.spawn_enemy (s : MainState) (rngX : ℚ) : MainState :=
  { s with enemies := s.enemies ++ [GameObject.new rngX (-20) 30 30] }

/-- MainState::spawn_powerup (never invoked by the tick in the source). -/
def MainState.spawn_powerup (s : MainState) (rngX : ℚ) : MainState :=
  { s with powerups := s.powerups ++ [GameObject.new rngX (-20) 20 20] }

/-- MainState::fire_bullet. -/
def MainState.fire_bullet (s : MainState) : MainState :=
  { s with bullets := s.bullets ++
      [⟨⟨s.player.game_object.position.x, s.player.game_object.position.y - 20⟩,
        ⟨0, -BULLET_SPEED⟩, ⟨5, 10⟩, true⟩] }

/-- MainState::reset: full replacement by MainState::new. -/
def MainState.reset (_s : MainState) : MainState := MainState.new

/-- Rust f32::clamp (precondition lo ≤ hi). -/
def rclamp (v lo hi : ℚ) : ℚ :=
  if v < lo then lo else if v > hi then hi else v

/-- Player sub-phase of MainState::update: Player::update, position
integration, horizontal clamp (lines 163-173). -/
def playerPhase (dt : ℚ) (s : MainState) : MainState :=
  let p0 := s.player.update dt
  let g0 := p0.game_object
  let px := rclamp (g0.position.x + g0.velocity.x * dt)
                   (g0.size.x / 2) (WINDOW_WIDTH - g0.size.x / 2)
  let py := g0.position.y + g0.velocity.y * dt
  { s with player := { p0 with game_object := { g0 with position := ⟨px, py⟩ } } }

/-- One bullet of the bullet-motion loop: integrate, mark dead below y = -10. -/
def bulletStep (dt : ℚ) (b : GameObject) : GameObject :=
  let b1 : GameObject :=
    { b with position := ⟨b.position.x + b.velocity.x * dt,
                          b.position.y + b.velocity.y * dt⟩ }
  if b1.position.y < -10 then { b1 with alive := false } else b1

/-- Bullet sub-phase of MainState::update: move all bullets, then
retain the live ones (lines 175-184). -/
def bulletMovePhase (dt : ℚ) (s : MainState) : MainState :=
  { s with bullets := (s.bullets.map (bulletStep dt)).filter fun b => b.alive }

/-- One enemy of the enemy loop (lines 186-206): descend by ENEMY_SPEED*dt,
bottom-exit check with player damage, then player-collision check with player
damage.  The accumulator carries (player, game_over, enemies processed so far). -/
def enemyStep (dt : ℚ) (acc : Player × Bool × List GameObject) (e : GameObject) :
    Player × Bool × List GameObject :=
  let p := acc.1
  let go := acc.2.1
  let es := acc.2.2
  let e1 : GameObject := { e with position := ⟨e.position.x, e.position.y + ENEMY_SPEED * dt⟩ }
  let r1 : GameObject × Player × Bool :=
    if e1.position.y > WINDOW_HEIGHT + 15 then
      let pr := p.take_damage
      ({ e1 with alive := false }, pr.1, go || (pr.2 && (pr.1.lives == 0)))
    else (e1, p, go)
  let e2 := r1.1
  let p2 := r1.2.1
  let go2 := r1.2.2
  let r2 : GameObject × Player × Bool :=
    if !p2.is_invincible && p2.game_object.collides_with e2 then
      let pr := p2.take_damage
      ({ e2 with alive := false }, pr.1, go2 || (pr.2 && (pr.1.lives == 0)))
    else (e2, p2, go2)
  (r2.2.1, r2.2.2, es ++ [r2.1])

/-- Enemy sub-phase of MainState::update (lines 186-206). -/
def enemyMovePhase (dt : ℚ) (s : MainState) : MainState :=
  let r := s.enemies.foldl (enemyStep dt) (s.player, s.game_over, [])
  { s with player := r.1, game_over := r.2.1, enemies := r.2.2 }

/-- Inner loop of the bullet-enemy collision phase (lines 210-216): one bullet
against the enemy list.  Note the source checks enemy.alive but never
bullet.alive and never breaks. -/
def collideInner : GameObject → List GameObject → Nat → GameObject × List GameObject × Nat
  | b, [], score => (b, [], score)
  | b, e :: rest, score =>
    if b.collides_with e && e.alive then
      let r := collideInner { b with alive := false } rest (score + 10)
      (r.1, { e with alive := false } :: r.2.1, r.2.2)
    else
      let r := collideInner b rest score
      (r.1, e :: r.2.1, r.2.2)

/-- Outer loop of the bullet-enemy collision phase (lines 209-217). -/
def collideOuter : List GameObject → List GameObject → Nat → List GameObject × List GameObject × Nat
  | [], es, score => ([], es, score)
  | b :: bs, es, score =>
    let r := collideInner b es score
    let r2 := collideOuter bs r.2.1 r.2.2
    (r.1 :: r2.1, r2.2.1, r2.2.2)

/-- Bullet-enemy collision sub-phase of MainState::update (lines 208-217).
The bullets list is NOT compacted here (the source retained bullets before
this phase only). -/
def collidePhase (s : MainState) : MainState :=
  let r := collideOuter s.bullets s.enemies s.score
  { s with bullets := r.1, enemies := r.2.1, score := r.2.2 }

/-- self.enemies.retain(|enemy| enemy.alive) (line 218). -/
def enemyRetainPhase (s : MainState) : MainState :=
  { s with enemies := s.enemies.filter fun e => e.alive }

/-- Enemy-spawn sub-phase of MainState::update (lines 220-225). -/
def spawnPhase (dt rngX : ℚ) (s : MainState) : MainState :=
  let s1 := { s with spawn_timer := s.spawn_timer + dt }
  if s1.spawn_timer ≥ ENEMY_SPAWN_INTERVAL then
    { s1.spawn_enemy rngX with spawn_timer := 0 }
  else s1

/-- EventHandler::update for MainState (lines 152-228).  restartPressed models
ctx.keyboard.is_key_just_pressed(KeyCode::R); rngX models the random spawn x. -/
def MainState.update (s : MainState) (dt : ℚ) (restartPressed : Bool) (rngX : ℚ) : MainState :=
  if s.game_over then
    if restartPressed then s.reset else s
  else
    spawnPhase dt rngX
      (enemyRetainPhase (collidePhase (enemyMovePhase dt (bulletMovePhase dt (playerPhase dt s)))))

/-- The keys the handlers distinguish. -/
inductive Key where
  | left
  | right
  | space
  | r
  | other
deriving DecidableEq

/-- EventHandler::key_down_event (lines 310-322). -/
def MainState.key_down_event (s : MainState) (k : Key) : MainState :=
  if s.game_over then s
  else
    match k with
    | Key.left =>
        { s with player := { s.player with game_object :=
            { s.player.game_object with velocity :=
                ⟨-PLAYER_SPEED, s.player.game_object.velocity.y⟩ } } }
    | Key.right =>
        { s with player := { s.player with game_object :=
            { s.player.game_object with velocity :=
                ⟨PLAYER_SPEED, s.player.game_object.velocity.y⟩ } } }
    | Key.space => s.fire_bullet
    | _ => s

/-- EventHandler::key_up_event (lines 324-332); note it has no game_over guard. -/
def MainState.key_up_event (s : MainState) (k : Key) : MainState :=
  match k with
  | Key.left =>
      { s with player := { s.player with game_object :=
          { s.player.game_object with velocity :=
              ⟨0, s.player.game_object.velocity.y⟩ } } }
  | Key.right =>
      { s with player := { s.player with game_object :=
          { s.player.game_object with velocity :=
              ⟨0, s.player.game_object.velocity.y⟩ } } }
  | _ => s

/-- Simp set that unfolds the geometric definitions for concrete evaluation. -/
lemma collides_with_def (a b : GameObject) :
    a.collides_with b =
      (decide (a.position.x - a.size.x / 2 ≤ b.position.x - b.size.x / 2 + b.size.x) &&
       decide (a.position.x - a.size.x / 2 + a.size.x ≥ b.position.x - b.size.x / 2) &&
       decide (a.position.y - a.size.y / 2 ≤ b.position.y - b.size.y / 2 + b.size.y) &&
       decide (a.position.y - a.size.y / 2 + a.size.y ≥ b.position.y - b.size.y / 2)) := rfl

/-- Overwriting the alive flag does not change the collision test. -/
lemma collides_with_set_alive (b e : GameObject) (a : Bool) :
    GameObject.collides_with { b with alive := a } e = b.collides_with e := rfl

/-- Overwriting the alive flag of the right argument does not change the test. -/
lemma collides_with_set_alive_right (b e : GameObject) (a : Bool) :
    GameObject.collides_with b { e with alive := a } = b.collides_with e := rfl

lemma u32dec_of_pos {n : Nat} (h1 : 1 ≤ n) : u32dec n = n - 1 := by
  unfold u32dec
  split <;> omega

lemma u32dec_zero : u32dec 0 = 4294967295 := rfl

lemma Player.update_game_object (p : Player) (dt : ℚ) :
    (p.update dt).game_object = p.game_object := by
  unfold Player.update
  split <;> rfl

lemma Player.update_lives (p : Player) (dt : ℚ) :
    (p.update dt).lives = p.lives := by
  unfold Player.update
  split <;> rfl

lemma Player.take_damage_game_object (p : Player) :
    (p.take_damage).1.game_object = p.game_object := by
  unfold Player.take_damage
  split <;> rfl

lemma rclamp_bounds (v lo hi : ℚ) (h : lo ≤ hi) :
    lo ≤ rclamp v lo hi ∧ rclamp v lo hi ≤ hi := by
  unfold rclamp
  split
  · exact ⟨le_refl lo, h⟩
  · split
    · exact ⟨h, le_refl hi⟩
    · constructor <;> linarith

/-- The inner collision loop leaves the enemy list's positions untouched and
kills exactly the live enemies that overlap the bullet (the source never
rechecks bullet.alive, so one bullet can kill several enemies). -/
lemma collideInner_enemies (b : GameObject) (es : List GameObject) (sc : Nat) :
    (collideInner b es sc).2.1 =
      es.map fun e => if b.collides_with e && e.alive then { e with alive := false } else e := by
  induction es generalizing b sc with
  | nil => simp [collideInner]
  | cons e rest ih =>
      cases hcw : b.collides_with e <;> cases ha : e.alive <;>
        simp [collideInner, hcw, ha, ih, collides_with_set_alive]

/-- The inner collision loop adds 10 to the score for every live enemy that
overlaps the bullet, regardless of the bullet's own alive flag. -/
lemma collideInner_score (b : GameObject) (es : List GameObject) (sc : Nat) :
    (collideInner b es sc).2.2 =
      sc + 10 * es.countP fun e => b.collides_with e && e.alive := by
  induction es generalizing b sc with
  | nil => simp [collideInner]
  | cons e rest ih =>
      cases hcw : b.collides_with e <;> cases ha : e.alive <;>
        simp [collideInner, hcw, ha, ih, collides_with_set_alive, List.countP_cons] <;>
        omega

/-- The inner collision loop returns the bullet with its position, velocity
and size unchanged, dead exactly if it was dead already or hit some live enemy. -/
lemma collideInner_bullet (b : GameObject) (es : List GameObject) (sc : Nat) :
    (collideInner b es sc).1 =
      { b with alive := b.alive && !(es.any fun e => b.collides_with e && e.alive) } := by
  induction es generalizing b sc with
  | nil => simp [collideInner]
  | cons e rest ih =>
      cases hcw : b.collides_with e <;> cases ha : e.alive <;>
        simp [collideInner, hcw, ha, ih, collides_with_set_alive]

/-- Enemies surviving the inner loop are the initially live ones minus the
live overlapping ones. -/
lemma countP_alive_after (b : GameObject) (es : List GameObject) :
    ((es.map fun e => if b.collides_with e && e.alive then { e with alive := false } else e).countP
        fun e => e.alive)
      + es.countP (fun e => b.collides_with e && e.alive)
      = es.countP fun e => e.alive := by
  induction es with
  | nil => simp
  | cons e rest ih =>
      cases hcw : b.collides_with e <;> cases ha : e.alive <;>
        simp only [List.map_cons, List.countP_cons, hcw, ha, Bool.and_self,
          Bool.and_false, Bool.true_and, Bool.false_and, Bool.false_eq_true,
          eq_self_iff_true, if_true, if_false] <;>
        simp only [List.countP_map] at ih ⊢ <;> omega

/-- Score conservation across the whole collision phase: the final score plus
10 per surviving live enemy equals the initial score plus 10 per initially
live enemy, i.e. the phase pays exactly 10 for each enemy whose alive flag it
clears, and no enemy is ever paid twice. -/
lemma collideOuter_score_conservation (bs es : List GameObject) (sc : Nat) :
    (collideOuter bs es sc).2.2 + 10 * ((collideOuter bs es sc).2.1.countP fun e => e.alive)
      = sc + 10 * es.countP fun e => e.alive := by
  induction bs generalizing es sc with
  | nil => simp [collideOuter]
  | cons b bs ih =>
      simp only [collideOuter, collideInner_enemies, collideInner_score]
      have h2 := countP_alive_after b es
      have h1 := ih
        (es.map fun e => if b.collides_with e && e.alive then { e with alive := false } else e)
        (sc + 10 * es.countP fun e => b.collides_with e && e.alive)
      omega

/-- The outer collision loop only toggles alive flags of bullets. -/
lemma collideOuter_bullets_mem (bs es : List GameObject) (sc : Nat) (b : GameObject)
    (hb : b ∈ (collideOuter bs es sc).1) :
    ∃ b0, b0 ∈ bs ∧ b.position = b0.position ∧ b.size = b0.size := by
  induction bs generalizing es sc with
  | nil => simp [collideOuter] at hb
  | cons b1 bs ih =>
      simp only [collideOuter, collideInner_bullet, List.mem_cons] at hb
      rcases hb with hb | hb
      · exact ⟨b1, List.mem_cons_self _ _, by rw [hb], by rw [hb]⟩
      · rcases ih _ _ hb with ⟨b0, hmem, hpos, hsz⟩
        exact ⟨b0, List.mem_cons_of_mem _ hmem, hpos, hsz⟩

lemma enemyStep_game_object (dt : ℚ) (acc : Player × Bool × List GameObject) (e : GameObject) :
    ((enemyStep dt acc e).1).game_object = acc.1.game_object := by
  simp only [enemyStep]
  split <;> split <;> simp [Player.take_damage_game_object]

lemma foldl_enemyStep_game_object (dt : ℚ) (l : List GameObject)
    (acc : Player × Bool × List GameObject) :
    ((l.foldl (enemyStep dt) acc).1).game_object = acc.1.game_object := by
  induction l generalizing acc with
  | nil => rfl
  | cons e rest ih => rw [List.foldl_cons, ih, enemyStep_game_object]

lemma spawnPhase_player (dt rngX : ℚ) (s : MainState) :
    (spawnPhase dt rngX s).player = s.player := by
  simp only [spawnPhase, MainState.spawn_enemy]
  split <;> rfl

lemma spawnPhase_bullets (dt rngX : ℚ) (s : MainState) :
    (spawnPhase dt rngX s).bullets = s.bullets := by
  simp only [spawnPhase, MainState.spawn_enemy]
  split <;> rfl

lemma spawnPhase_powerups (dt rngX : ℚ) (s : MainState) :
    (spawnPhase dt rngX s).powerups = s.powerups := by
  simp only [spawnPhase, MainState.spawn_enemy]
  split <;> rfl

lemma spawnPhase_score (dt rngX : ℚ) (s : MainState) :
    (spawnPhase dt rngX s).score = s.score := by
  simp only [spawnPhase, MainState.spawn_enemy]
  split <;> rfl

lemma spawnPhase_game_over (dt rngX : ℚ) (s : MainState) :
    (spawnPhase dt rngX s).game_over = s.game_over := by
  simp only [spawnPhase, MainState.spawn_enemy]
  split <;> rfl

lemma spawnPhase_spawn_timer (dt rngX : ℚ) (s : MainState) :
    (spawnPhase dt rngX s).spawn_timer =
      if s.spawn_timer + dt ≥ ENEMY_SPAWN_INTERVAL then 0 else s.spawn_timer + dt := by
  simp only [spawnPhase, MainState.spawn_enemy]
  split <;> rfl

lemma spawnPhase_enemies (dt rngX : ℚ) (s : MainState) :
    (spawnPhase dt rngX s).enemies =
      if s.spawn_timer + dt ≥ ENEMY_SPAWN_INTERVAL then
        s.enemies ++ [GameObject.new rngX (-20) 30 30]
      else s.enemies := by
  simp only [spawnPhase, MainState.spawn_enemy]
  split <;> rfl

/-- A bullet that survives the bullet-motion retain pass is live and has not
left the top of the arena. -/
lemma bulletStep_alive_pos (dt : ℚ) (b0 : GameObject)
    (h : (bulletStep dt b0).alive = true) :
    ¬ (bulletStep dt b0).position.y < -10 := by
  by_cases hc : b0.position.y + b0.velocity.y * dt < -10
  · have hfalse : (bulletStep dt b0).alive = false := by simp [bulletStep, hc]
    rw [hfalse] at h
    cases h
  · have hpos : (bulletStep dt b0).position.y = b0.position.y + b0.velocity.y * dt := by
      simp [bulletStep, hc]
    rw [hpos]
    exact hc

lemma bulletMovePhase_mem (dt : ℚ) (s : MainState) (b : GameObject)
    (hb : b ∈ (bulletMovePhase dt s).bullets) :
    b.alive = true ∧ ¬ b.position.y < -10 := by
  unfold bulletMovePhase at hb
  simp only [List.mem_filter, List.mem_map] at hb
  rcases hb with ⟨⟨b0, _, hb0eq⟩, halive⟩
  subst hb0eq
  exact ⟨halive, bulletStep_alive_pos dt b0 halive⟩

/-- The player after a running tick: Player::update changes no game_object
field, then the position is integrated and the x coordinate clamped. -/
lemma update_player_game_object (s : MainState) (dt rngX : ℚ) (r : Bool)
    (h : s.game_over = false) :
    (MainState.update s dt r rngX).player.game_object =
      { s.player.game_object with position :=
          ⟨rclamp (s.player.game_object.position.x + s.player.game_object.velocity.x * dt)
              (s.player.game_object.size.x / 2)
              (WINDOW_WIDTH - s.player.game_object.size.x / 2),
           s.player.game_object.position.y + s.player.game_object.velocity.y * dt⟩ } := by
  unfold MainState.update
  rw [h]
  simp only [Bool.false_eq_true, if_false]
  rw [spawnPhase_player]
  show ((enemyMovePhase dt (bulletMovePhase dt (playerPhase dt s))).player).game_object = _
  unfold enemyMovePhase
  rw [foldl_enemyStep_game_object]
  show ((playerPhase dt s).player).game_object = _
  simp only [playerPhase]
  rw [Player.update_game_object]

/-- The bullets after a running tick are exactly the output of the collision
loop applied to the moved-and-retained bullets: dead collided bullets are NOT
removed before the tick ends. -/
lemma update_bullets (s : MainState) (dt rngX : ℚ) (r : Bool)
    (h : s.game_over = false) :
    (MainState.update s dt r rngX).bullets =
      (collideOuter ((s.bullets.map (bulletStep dt)).filter fun b => b.alive)
        (enemyMovePhase dt (bulletMovePhase dt (playerPhase dt s))).enemies
        s.score).1 := by
  unfold MainState.update
  rw [h]
  simp only [Bool.false_eq_true, if_false]
  rw [spawnPhase_bullets]
  rfl

lemma update_powerups (s : MainState) (dt rngX : ℚ) (r : Bool)
    (h : s.game_over = false) :
    (MainState.update s dt r rngX).powerups = s.powerups := by
  unfold MainState.update
  rw [h]
  simp only [Bool.false_eq_true, if_false]
  rw [spawnPhase_powerups]
  rfl

lemma update_spawn_timer (s : MainState) (dt rngX : ℚ) (r : Bool)
    (h : s.game_over = false) :
    (MainState.update s dt r rngX).spawn_timer =
      if s.spawn_timer + dt ≥ ENEMY_SPAWN_INTERVAL then 0 else s.spawn_timer + dt := by
  unfold MainState.update
  rw [h]
  simp only [Bool.false_eq_true, if_false]
  rw [spawnPhase_spawn_timer]
  rfl

lemma update_enemies (s : MainState) (dt rngX : ℚ) (r : Bool)
    (h : s.game_over = false) :
    (MainState.update s dt r rngX).enemies =
      if s.spawn_timer + dt ≥ ENEMY_SPAWN_INTERVAL then
        ((collideOuter ((s.bullets.map (bulletStep dt)).filter fun b => b.alive)
            (enemyMovePhase dt (bulletMovePhase dt (playerPhase dt s))).enemies
            s.score).2.1.filter fun e => e.alive) ++ [GameObject.new rngX (-20) 30 30]
      else
        (collideOuter ((s.bullets.map (bulletStep dt)).filter fun b => b.alive)
            (enemyMovePhase dt (bulletMovePhase dt (playerPhase dt s))).enemies
            s.score).2.1.filter fun e => e.alive := by
  unfold MainState.update
  rw [h]
  simp only [Bool.false_eq_true, if_false]
  rw [spawnPhase_enemies]
  rfl

lemma take_damage_applied (p : Player) (h : p.invincible_timer ≤ 0) :
    p.take_damage = ({ p with lives := u32dec p.lives, invincible_timer := 2 }, true) := by
  unfold Player.take_damage
  rw [if_pos h]

lemma take_damage_blocked (p : Player) (h : 0 < p.invincible_timer) :
    p.take_damage = (p, false) := by
  unfold Player.take_damage
  rw [if_neg (not_le.mpr h)]

lemma update_timer_frozen (p : Player) (dt : ℚ) (h : p.invincible_timer ≤ 0) :
    p.update dt = p := by
  unfold Player.update
  rw [if_neg (not_lt.mpr h)]

lemma update_timer_active (p : Player) (dt : ℚ) (h : 0 < p.invincible_timer) :
    p.update dt = { p with invincible_timer := p.invincible_timer - dt } := by
  unfold Player.update
  rw [if_pos h]

lemma updates_lives (p : Player) (dts : List ℚ) : (p.updates dts).lives = p.lives := by
  induction dts generalizing p with
  | nil => rfl
  | cons d rest ih =>
      show ((p.update d).updates rest).lives = p.lives
      rw [ih, Player.update_lives]

lemma updates_game_object (p : Player) (dts : List ℚ) :
    (p.updates dts).game_object = p.game_object := by
  induction dts generalizing p with
  | nil => rfl
  | cons d rest ih =>
      show ((p.update d).updates rest).game_object = p.game_object
      rw [ih, Player.update_game_object]

/-- While the accumulated dt stays below the timer, update just subtracts. -/
lemma updates_timer_of_lt (dts : List ℚ) (p : Player)
    (hpos : ∀ d ∈ dts, 0 ≤ d) (hs : dts.sum < p.invincible_timer) :
    (p.updates dts).invincible_timer = p.invincible_timer - dts.sum := by
  induction dts generalizing p with
  | nil => simp [Player.updates]
  | cons d rest ih =>
      have hd : 0 ≤ d := hpos d (List.mem_cons_self d rest)
      have hrest : ∀ x ∈ rest, 0 ≤ x := fun x hx => hpos x (List.mem_cons_of_mem d hx)
      have hsum : 0 ≤ rest.sum := List.sum_nonneg hrest
      rw [List.sum_cons] at hs
      have hpt : 0 < p.invincible_timer := by linarith
      have hlt : rest.sum < p.invincible_timer - d := by linarith
      show ((p.update d).updates rest).invincible_timer = _
      rw [update_timer_active p d hpt]
      rw [ih { p with invincible_timer := p.invincible_timer - d } hrest hlt]
      show p.invincible_timer - d - rest.sum = p.invincible_timer - (d :: rest).sum
      rw [List.sum_cons]
      ring

/-- In general the timer ends at most timer - sum, or is already expired. -/
lemma updates_timer_le (dts : List ℚ) (p : Player) (hpos : ∀ d ∈ dts, 0 ≤ d) :
    (p.updates dts).invincible_timer ≤ p.invincible_timer - dts.sum ∨
    (p.updates dts).invincible_timer ≤ 0 := by
  induction dts generalizing p with
  | nil =>
      left
      simp [Player.updates]
  | cons d rest ih =>
      have hd : 0 ≤ d := hpos d (List.mem_cons_self d rest)
      have hrest : ∀ x ∈ rest, 0 ≤ x := fun x hx => hpos x (List.mem_cons_of_mem d hx)
      have hsum : 0 ≤ rest.sum := List.sum_nonneg hrest
      show ((p.update d).updates rest).invincible_timer ≤ _ - (d :: rest).sum ∨
        ((p.update d).updates rest).invincible_timer ≤ 0
      rw [List.sum_cons]
      by_cases hpt : 0 < p.invincible_timer
      · rw [update_timer_active p d hpt]
        rcases ih { p with invincible_timer := p.invincible_timer - d } hrest with h | h
        · left
          simp only at h
          linarith
        · right
          exact h
      · rw [update_timer_frozen p d (not_lt.mp hpt)]
        rcases ih p hrest with h | h
        · right
          have hple : p.invincible_timer ≤ 0 := not_lt.mp hpt
          linarith
        · right
          exact h

/-- A player at the initial position with the given lives and timer. -/
def mkPlayer (lives : Nat) (timer : ℚ) : Player :=
  { game_object := GameObject.new 400 550 30 30, lives := lives, invincible_timer := timer }

/-- C2: counterexample.  With lives = 0 and no invincibility active,
take_damage applies damage (returns true) but the u32 subtraction wraps the
lives counter to 4294967295 instead of saturating at 0, refuting the claim
that lives saturates at 0. -/
theorem C2_take_damage_counterexample :
    ((mkPlayer 0 0).take_damage).2 = true ∧
    ((mkPlayer 0 0).take_damage).1.lives = 4294967295 ∧
    ((mkPlayer 0 0).take_damage).1.lives ≠ 0 := by
  refine ⟨rfl, rfl, by decide⟩

/-- C2 (amended): for every player with at least one life, take_damage with
invincible_timer ≤ 0 decrements lives by exactly one, sets the timer to 2.0
and returns true; with the timer positive it returns false and changes
nothing.  At lives = 0 the subtraction does not saturate but wraps
(see the counterexample), so the claim holds only away from lives = 0. -/
theorem C2_take_damage_amended (p : Player) (hl : 1 ≤ p.lives) :
    (p.invincible_timer ≤ 0 →
      p.take_damage = ({ p with lives := p.lives - 1, invincible_timer := 2 }, true)) ∧
    (0 < p.invincible_timer → p.take_damage = (p, false)) := by
  constructor
  · intro h
    rw [take_damage_applied p h, u32dec_of_pos hl]
  · intro h
    exact take_damage_blocked p h

/-- C2 witness: the amended theorem evaluated at a concrete player. -/
theorem C2_take_damage_witness :
    1 ≤ (mkPlayer 3 0).lives ∧
    (mkPlayer 3 0).take_damage =
      ({ mkPlayer 3 0 with lives := (mkPlayer 3 0).lives - 1, invincible_timer := 2 }, true) :=
  ⟨by decide, (C2_take_damage_amended (mkPlayer 3 0) (by decide)).1 (by decide)⟩

/-- C8: counterexample.  Player::update subtracts dt from a positive timer
without flooring, so a dt larger than the remaining window drives
invincible_timer strictly below 0, refuting the claimed invariant that every
operation keeps the timer nonnegative. -/
theorem C8_timer_counterexample :
    ((mkPlayer 3 2).update 3).invincible_timer < 0 := by
  rw [update_timer_active (mkPlayer 3 2) 3 (by decide)]
  show (2 : ℚ) - 3 < 0
  norm_num

/-- C8 (amended): the timer can undershoot zero, but only by at most the dt
of the update that crosses it: from a nonnegative timer, one update leaves at
least -dt; an expired (nonpositive) timer is frozen; construction and restart
set the timer to 0 and take_damage either sets it to 2 or leaves it. -/
theorem C8_timer_amended (p : Player) (dt x y : ℚ) (hdt : 0 ≤ dt) :
    (0 ≤ p.invincible_timer → -dt ≤ (p.update dt).invincible_timer) ∧
    (p.invincible_timer ≤ 0 → (p.update dt).invincible_timer = p.invincible_timer) ∧
    (Player.new x y).invincible_timer = 0 ∧
    MainState.new.player.invincible_timer = 0 ∧
    ((p.take_damage).1.invincible_timer = 2 ∨
      (p.take_damage).1.invincible_timer = p.invincible_timer) := by
  refine ⟨?_, ?_, rfl, rfl, ?_⟩
  · intro h
    unfold Player.update
    split
    · show -dt ≤ p.invincible_timer - dt
      linarith
    · show -dt ≤ p.invincible_timer
      linarith
  · intro h
    rw [update_timer_frozen p dt h]
  · by_cases h : p.invincible_timer ≤ 0
    · left
      rw [take_damage_applied p h]
    · right
      rw [take_damage_blocked p (not_le.mp h)]

/-- C8 witness: the amended theorem evaluated at a concrete player and dt. -/
theorem C8_timer_witness :
    (0 : ℚ) ≤ 1 ∧ -(1 : ℚ) ≤ ((mkPlayer 3 2).update 1).invincible_timer :=
  ⟨by norm_num, (C8_timer_amended (mkPlayer 3 2) 1 0 0 (by norm_num)).1 (by decide)⟩

/-- C7: a take_damage that applies (returns true) opens a 2-second window;
while further Player::update deltas (each nonnegative) sum to less than 2,
a second take_damage returns false and changes nothing, so lives drops only
once; once the accumulated deltas reach 2, the next take_damage applies and
decrements lives again. -/
theorem C7_invincibility_window (p : Player) (dts1 dts2 : List ℚ)
    (h0 : p.invincible_timer ≤ 0) (hl : 2 ≤ p.lives)
    (h1 : ∀ d ∈ dts1, 0 ≤ d) (hs1 : dts1.sum < 2)
    (h2 : ∀ d ∈ dts2, 0 ≤ d) (hs2 : 2 ≤ dts1.sum + dts2.sum) :
    (p.take_damage).2 = true ∧
    ((p.take_damage).1).lives = p.lives - 1 ∧
    ((((p.take_damage).1).updates dts1).take_damage).2 = false ∧
    ((((p.take_damage).1).updates dts1).take_damage).1 = ((p.take_damage).1).updates dts1 ∧
    ((((((p.take_damage).1).updates dts1).take_damage).1.updates dts2).take_damage).2 = true ∧
    ((((((p.take_damage).1).updates dts1).take_damage).1.updates dts2).take_damage).1.lives
      = p.lives - 2 := by
  have hq : p.take_damage = ({ p with lives := u32dec p.lives, invincible_timer := 2 }, true) :=
    take_damage_applied p h0
  rw [hq]
  set q : Player := { p with lives := u32dec p.lives, invincible_timer := 2 } with hqdef
  have hql : q.lives = p.lives - 1 := by
    rw [hqdef]
    show u32dec p.lives = p.lives - 1
    exact u32dec_of_pos (by omega)
  have ht1 : (q.updates dts1).invincible_timer = 2 - dts1.sum := by
    have := updates_timer_of_lt dts1 q h1 (show dts1.sum < q.invincible_timer from hs1)
    rw [this]
  have htpos : 0 < (q.updates dts1).invincible_timer := by
    rw [ht1]
    linarith
  have hblock : ((q.updates dts1).take_damage) = (q.updates dts1, false) :=
    take_damage_blocked (q.updates dts1) htpos
  rw [hblock]
  have hle : ((q.updates dts1).updates dts2).invincible_timer ≤ 0 := by
    rcases updates_timer_le dts2 (q.updates dts1) h2 with h | h
    · rw [ht1] at h
      linarith
    · exact h
  have happly := take_damage_applied ((q.updates dts1).updates dts2) hle
  rw [happly]
  refine ⟨rfl, hql, rfl, rfl, rfl, ?_⟩
  show u32dec (((q.updates dts1).updates dts2).lives) = p.lives - 2
  rw [updates_lives, updates_lives, hql, u32dec_of_pos (by omega)]
  omega

/-- C7 witness: a full damage-wait-damage-wait-damage run with unit deltas. -/
theorem C7_invincibility_witness :
    ((((mkPlayer 3 0).take_damage).1.updates [1]).take_damage).2 = false ∧
    ((((((mkPlayer 3 0).take_damage).1.updates [1]).take_damage).1.updates [1]).take_damage).1.lives
      = 1 := by
  have h := C7_invincibility_window (mkPlayer 3 0) [1] [1] (by decide) (by decide)
    (by decide) (by norm_num [List.sum_cons, List.sum_nil])
    (by decide) (by norm_num [List.sum_cons, List.sum_nil])
  exact ⟨h.2.2.1, h.2.2.2.2.2⟩

/-- A game-over session whose player still carries a rightward velocity. -/
def overState : MainState :=
  { MainState.new with
      game_over := true,
      player := { MainState.new.player with game_object :=
        { MainState.new.player.game_object with velocity := ⟨300, 0⟩ } } }

/-- C5: the restart operation replaces the whole session with a fresh one:
a game-over tick with the restart key pressed yields MainState::new, reset
yields MainState::new, and the fresh session has score 0, lives 3, game_over
false, timers 0, empty collections and the player at
(arena_width/2, arena_height - 50). -/
theorem C5_restart_reset (s : MainState) (dt rngX : ℚ) (h : s.game_over = true) :
    MainState.update s dt true rngX = MainState.new ∧
    s.reset = MainState.new ∧
    MainState.new.score = 0 ∧
    MainState.new.player.lives = 3 ∧
    MainState.new.game_over = false ∧
    MainState.new.player.invincible_timer = 0 ∧
    MainState.new.spawn_timer = 0 ∧
    MainState.new.powerup_timer = 0 ∧
    MainState.new.bullets = [] ∧
    MainState.new.enemies = [] ∧
    MainState.new.powerups = [] ∧
    MainState.new.player.game_object.position = ⟨WINDOW_WIDTH / 2, WINDOW_HEIGHT - 50⟩ := by
  refine ⟨?_, rfl, rfl, rfl, rfl, rfl, rfl, rfl, rfl, rfl, rfl, rfl⟩
  unfold MainState.update
  rw [h]
  rfl

/-- C5 witness: restart from a concrete game-over session. -/
theorem C5_restart_reset_witness :
    overState.game_over = true ∧ MainState.update overState 1 true 0 = MainState.new :=
  ⟨rfl, (C5_restart_reset overState 1 0 rfl).1⟩

/-- C4: counterexample.  In a game-over state a key-up of the left movement
key is still processed: it zeroes the player's horizontal velocity and hence
changes the session state, refuting the claim that no key input other than
restart changes any session state while game_over holds. -/
theorem C4_game_over_counterexample :
    overState.game_over = true ∧
    overState.player.game_object.velocity.x = 300 ∧
    (MainState.key_up_event overState Key.left).player.game_object.velocity.x = 0 ∧
    MainState.key_up_event overState Key.left ≠ overState := by
  refine ⟨rfl, rfl, rfl, ?_⟩
  intro heq
  have hx := congrArg (fun st => st.player.game_object.velocity.x) heq
  have hx0 : (0 : ℚ) = 300 := hx
  norm_num at hx0

/-- C4 (amended): while game_over holds, a tick without the restart key
leaves the session unchanged and every key press is ignored; key releases of
keys other than Left/Right are also ignored, but a Left or Right key release
is still processed and zeroes the horizontal velocity (the source's
key_up_event has no game_over guard). -/
theorem C4_game_over_amended (s : MainState) (dt rngX : ℚ) (h : s.game_over = true) :
    MainState.update s dt false rngX = s ∧
    (∀ k, MainState.key_down_event s k = s) ∧
    MainState.key_up_event s Key.space = s ∧
    MainState.key_up_event s Key.r = s ∧
    MainState.key_up_event s Key.other = s ∧
    MainState.key_up_event s Key.left =
      { s with player := { s.player with game_object :=
          { s.player.game_object with velocity := ⟨0, s.player.game_object.velocity.y⟩ } } } ∧
    MainState.key_up_event s Key.right =
      { s with player := { s.player with game_object :=
          { s.player.game_object with velocity := ⟨0, s.player.game_object.velocity.y⟩ } } } := by
  refine ⟨?_, ?_, rfl, rfl, rfl, rfl, rfl⟩
  · unfold MainState.update
    rw [h]
    rfl
  · intro k
    unfold MainState.key_down_event
    rw [h]
    rfl

/-- C4 witness: the amended theorem evaluated at a concrete game-over state. -/
theorem C4_game_over_witness :
    MainState.update overState 1 false 0 = overState ∧
    MainState.key_down_event overState Key.space = overState :=
  ⟨(C4_game_over_amended overState 1 0 rfl).1,
   (C4_game_over_amended overState 1 0 rfl).2.1 Key.space⟩

/-- C10: in every game-over state a key-up of the left or right movement key
still sets the player's horizontal velocity to 0, while key presses are all
ignored. -/
theorem C10_keyup_during_game_over (s : MainState) (h : s.game_over = true) :
    (MainState.key_up_event s Key.left).player.game_object.velocity.x = 0 ∧
    (MainState.key_up_event s Key.right).player.game_object.velocity.x = 0 ∧
    ∀ k, MainState.key_down_event s k = s := by
  refine ⟨rfl, rfl, ?_⟩
  intro k
  unfold MainState.key_down_event
  rw [h]
  rfl

/-- C10 witness: the theorem evaluated at a concrete game-over state. -/
theorem C10_keyup_witness :
    (MainState.key_up_event overState Key.left).player.game_object.velocity.x = 0 ∧
    MainState.key_down_event overState Key.left = overState :=
  ⟨(C10_keyup_during_game_over overState rfl).1,
   (C10_keyup_during_game_over overState rfl).2.2 Key.left⟩

/-- C6: during a running tick the player's horizontal position is clamped
into [half_size.x, arena_width - half_size.x] whatever the velocity and dt
(only requiring the clamp's own precondition size.x ≤ arena_width, which the
fixed 30-pixel player always satisfies), while the vertical position is only
integrated, never clamped. -/
theorem C6_player_clamp (s : MainState) (dt rngX : ℚ) (r : Bool)
    (hgo : s.game_over = false) (hsz : s.player.game_object.size.x ≤ 800) :
    s.player.game_object.size.x / 2
      ≤ (MainState.update s dt r rngX).player.game_object.position.x ∧
    (MainState.update s dt r rngX).player.game_object.position.x
      ≤ WINDOW_WIDTH - s.player.game_object.size.x / 2 ∧
    (MainState.update s dt r rngX).player.game_object.position.y
      = s.player.game_object.position.y + s.player.game_object.velocity.y * dt := by
  rw [update_player_game_object s dt rngX r hgo]
  have hb := rclamp_bounds
    (s.player.game_object.position.x + s.player.game_object.velocity.x * dt)
    (s.player.game_object.size.x / 2) (WINDOW_WIDTH - s.player.game_object.size.x / 2)
    (show s.player.game_object.size.x / 2 ≤ WINDOW_WIDTH - s.player.game_object.size.x / 2 by
      unfold WINDOW_WIDTH
      linarith)
  exact ⟨hb.1, hb.2, rfl⟩

/-- C6 witness: the clamp bound evaluated at the fresh session. -/
theorem C6_player_clamp_witness :
    MainState.new.game_over = false ∧
    MainState.new.player.game_object.size.x / 2
      ≤ (MainState.update MainState.new 1 false 0).player.game_object.position.x :=
  ⟨rfl, (C6_player_clamp MainState.new 1 0 false rfl (by decide)).1⟩

/-- A running session half a second away from the next enemy spawn. -/
def spawnState : MainState := { MainState.new with spawn_timer := 1/2 }

/-- C9: counterexample.  The enemy spawned when the timer fires is built by
GameObject::new, whose velocity is Vec2::ZERO: its velocity is (0, 0) and not
(0, enemy_speed) as claimed; the descent is applied directly to position.y in
the tick instead. -/
theorem C9_spawn_counterexample :
    (MainState.update spawnState (1/2) false 100).enemies
      = [⟨⟨100, -20⟩, ⟨0, 0⟩, ⟨30, 30⟩, true⟩] ∧
    ((MainState.update spawnState (1/2) false 100).enemies.map fun e => e.velocity)
      = [⟨0, 0⟩] ∧
    (⟨0, 0⟩ : Vec2) ≠ ⟨0, ENEMY_SPEED⟩ := by
  have hcond : spawnState.spawn_timer + 1/2 ≥ ENEMY_SPAWN_INTERVAL := by
    show (1/2 : ℚ) + 1/2 ≥ ENEMY_SPAWN_INTERVAL
    unfold ENEMY_SPAWN_INTERVAL
    norm_num
  have h1 : (MainState.update spawnState (1/2) false 100).enemies
      = [⟨⟨100, -20⟩, ⟨0, 0⟩, ⟨30, 30⟩, true⟩] := by
    rw [update_enemies spawnState (1/2) 100 false rfl, if_pos hcond]
    rfl
  refine ⟨h1, by rw [h1]; rfl, ?_⟩
  intro hv
  have hy : (0 : ℚ) = ENEMY_SPEED := congrArg Vec2.y hv
  unfold ENEMY_SPEED at hy
  norm_num at hy

/-- C9 (amended): spawning is a fixed-rate generator: each running tick adds
dt to spawn_timer, and when the accumulated timer reaches the 1-second
interval exactly one enemy is appended and the timer resets to 0; the enemy
sits at (rngX, -20) with size 30 x 30 but its velocity is (0, 0) (descent is
applied directly to position.y each tick); rngX models the x drawn by
gen_range from [20, arena_width - 20). -/
theorem C9_spawn_amended (s : MainState) (dt rngX : ℚ) (r : Bool)
    (h : s.game_over = false) :
    ((MainState.update s dt r rngX).spawn_timer =
      if s.spawn_timer + dt ≥ ENEMY_SPAWN_INTERVAL then 0 else s.spawn_timer + dt) ∧
    (s.spawn_timer + dt ≥ ENEMY_SPAWN_INTERVAL →
      ∃ es, (MainState.update s dt r rngX).enemies = es ++ [GameObject.new rngX (-20) 30 30]) ∧
    GameObject.new rngX (-20) 30 30 = ⟨⟨rngX, -20⟩, ⟨0, 0⟩, ⟨30, 30⟩, true⟩ := by
  refine ⟨update_spawn_timer s dt rngX r h, ?_, rfl⟩
  intro hc
  rw [update_enemies s dt rngX r h, if_pos hc]
  exact ⟨_, rfl⟩

/-- C9 witness: the amended theorem evaluated at the half-second state. -/
theorem C9_spawn_witness :
    spawnState.game_over = false ∧
    (MainState.update spawnState (1/2) false 100).spawn_timer =
      (if spawnState.spawn_timer + 1/2 ≥ ENEMY_SPAWN_INTERVAL then 0
       else spawnState.spawn_timer + 1/2) :=
  ⟨rfl, (C9_spawn_amended spawnState (1/2) 100 false rfl).1⟩

/-- A running session with one bullet about to hit one enemy. -/
def deadBulletState : MainState :=
  { MainState.new with
      bullets := [⟨⟨100, 300⟩, ⟨0, -400⟩, ⟨5, 10⟩, true⟩],
      enemies := [⟨⟨100, 295⟩, ⟨0, 0⟩, ⟨30, 30⟩, true⟩] }

/-- C3: counterexample.  After a tick in which the bullet and the enemy
collide, the bullet killed by the collision is still present (alive = false)
in the bullets collection at the tick boundary, because the bullets retain
pass runs before the collision phase; this refutes the claim that every
entity marked dead in a tick is removed from its collection by the end of
that tick. -/
theorem C3_dead_persistence_counterexample :
    ((MainState.update deadBulletState (1/100) false 0).bullets.map fun b => b.alive)
      = [false] ∧
    (MainState.update deadBulletState (1/100) false 0).bullets ≠ [] := by
  have h1 : (MainState.update deadBulletState (1/100) false 0).bullets
      = [⟨⟨100, 296⟩, ⟨0, -400⟩, ⟨5, 10⟩, false⟩] := by
    rw [update_bullets deadBulletState (1/100) 0 false rfl]
    norm_num [deadBulletState, MainState.new, Player.new, GameObject.new,
      enemyMovePhase, bulletMovePhase, playerPhase, bulletStep, enemyStep,
      Player.update, Player.is_invincible, Player.take_damage, rclamp,
      GameObject.collides_with, GameObject.bounds, Rect.overlaps,
      Rect.left, Rect.right, Rect.top, Rect.bottom,
      collideOuter, collideInner, List.foldl,
      WINDOW_WIDTH, WINDOW_HEIGHT, ENEMY_SPEED, BULLET_SPEED]
  rw [h1]
  constructor
  · rfl
  · intro hcontra
    cases hcontra

/-- C3 (amended): by the end of a running tick every dead enemy has been
removed from the enemies collection, every surviving bullet is inside the
top boundary (bullets that exited the top were removed in the same tick),
and the powerups collection is untouched; but a bullet consumed by a
bullet-enemy collision stays, dead, in the bullets collection until the
retain pass early in the next running tick (see the counterexample). -/
theorem C3_compaction_amended (s : MainState) (dt rngX : ℚ) (r : Bool)
    (h : s.game_over = false) :
    ((MainState.update s dt r rngX).enemies.all fun e => e.alive) = true ∧
    (∀ b ∈ (MainState.update s dt r rngX).bullets, ¬ b.position.y < -10) ∧
    (MainState.update s dt r rngX).powerups = s.powerups := by
  refine ⟨?_, ?_, update_powerups s dt rngX r h⟩
  · have hfilter : ∀ l : List GameObject,
        ((l.filter fun e => e.alive).all fun e => e.alive) = true :=
      fun l => List.all_eq_true.mpr fun e he => (List.mem_filter.mp he).2
    rw [update_enemies s dt rngX r h]
    split
    · rw [List.all_append]
      rw [hfilter]
      rfl
    · exact hfilter _
  · intro b hb
    rw [update_bullets s dt rngX r h] at hb
    rcases collideOuter_bullets_mem _ _ _ b hb with ⟨b0, hb0, hpos, _⟩
    obtain ⟨_, hy⟩ := bulletMovePhase_mem dt (playerPhase dt s) b0 hb0
    rw [hpos]
    exact hy

/-- C3 witness: the amended theorem evaluated at the fresh session. -/
theorem C3_compaction_witness :
    MainState.new.game_over = false ∧
    ((MainState.update MainState.new 1 false 0).enemies.all fun e => e.alive) = true :=
  ⟨rfl, (C3_compaction_amended MainState.new 1 0 false rfl).1⟩

def cexBullet : GameObject := ⟨⟨100, 100⟩, ⟨0, -400⟩, ⟨5, 10⟩, true⟩

def cexEnemyA : GameObject := ⟨⟨100, 100⟩, ⟨0, 0⟩, ⟨30, 30⟩, true⟩

def cexEnemyB : GameObject := ⟨⟨110, 100⟩, ⟨0, 0⟩, ⟨30, 30⟩, true⟩

/-- C1: counterexample.  One bullet geometrically overlapping two live
enemies kills BOTH of them in the same collision phase and the score rises
by 20, because the inner loop never rechecks bullet.alive and never breaks;
this refutes the claim that a bullet kills at most one enemy per tick (the
first overlapping enemy consuming the bullet, for a score delta of 10). -/
theorem C1_multi_kill_counterexample :
    (collideOuter [cexBullet] [cexEnemyA, cexEnemyB] 0).2.2 = 20 ∧
    ((collideOuter [cexBullet] [cexEnemyA, cexEnemyB] 0).2.1.map fun e => e.alive)
      = [false, false] ∧
    (collideOuter [cexBullet] [cexEnemyA, cexEnemyB] 0).2.2 ≠ 10 := by
  norm_num [cexBullet, cexEnemyA, cexEnemyB, collideOuter, collideInner,
    GameObject.collides_with, GameObject.bounds, Rect.overlaps,
    Rect.left, Rect.right, Rect.top, Rect.bottom]

/-- C1 (amended): in the collision phase, each bullet kills EVERY live enemy
whose bounds overlap it (not only the first: the inner loop has no
bullet-alive check or break), the bullet ends dead exactly if it hit at least
one, enemy positions are unchanged, and the score grows by exactly 10 per
enemy killed; an enemy overlapping several bullets is still scored only once,
as the conservation equation for the outer loop shows: final score plus 10
per surviving live enemy equals initial score plus 10 per initially live
enemy. -/
theorem C1_collision_amended :
    (∀ (b : GameObject) (es : List GameObject) (sc : Nat),
      (collideInner b es sc).1 =
        { b with alive := b.alive && !(es.any fun e => b.collides_with e && e.alive) } ∧
      (collideInner b es sc).2.1 =
        (es.map fun e => if b.collides_with e && e.alive then { e with alive := false } else e) ∧
      (collideInner b es sc).2.2 = sc + 10 * es.countP fun e => b.collides_with e && e.alive) ∧
    (∀ (bs es : List GameObject) (sc : Nat),
      (collideOuter bs es sc).2.2 + 10 * ((collideOuter bs es sc).2.1.countP fun e => e.alive)
        = sc + 10 * es.countP fun e => e.alive) :=
  ⟨fun b es sc =>
      ⟨collideInner_bullet b es sc, collideInner_enemies b es sc, collideInner_score b es sc⟩,
   collideOuter_score_conservation⟩

end SpaceShooter
